import Mathlib

/-!
Verification development for the dash-docs repository.

Part 1 embeds the download-callback example
(`src/dash_docs/chapters/dash_core_components/Download/examples/download-dataframe-xlxs.py`).

Part 2 models the declarative dash-vtk scene-description format documented in
`src/dash_docs/chapters/dash_vtk/index.py`: the validation behaviour it documents
(property schemas, defaults, field attachment, shared references, slicing) is
implemented by the external dash_vtk library, not by code under this repository,
so those operations are modelled from the specification text.
-/

namespace DashDocs

/-- A cell value of the example DataFrame: the columns hold integers or strings. -/
inductive ColValue where
  | int (n : Int)
  | str (s : String)
deriving DecidableEq, Repr

/-- A DataFrame, embedded as an ordered association of column name to column values. -/
def DataFrame := List (String × List ColValue)

instance : DecidableEq DataFrame := by
  unfold DataFrame
  infer_instance

/-- The module-level DataFrame `df` of download-dataframe-xlxs.py:
`pd.DataFrame({"a": [1, 2, 3, 4], "b": [2, 1, 5, 6], "c": ["x", "x", "y", "y"]})`. -/
def df : DataFrame :=
  [("a", [.int 1, .int 2, .int 3, .int 4]),
   ("b", [.int 2, .int 1, .int 5, .int 6]),
   ("c", [.str "x", .str "x", .str "y", .str "y"])]

/-- The value returned by `dcc.send_data_frame(writer, filename, **kwargs)`:
a triple of the data payload (the DataFrame bound to the writer method, and the
writer's name), the download filename, and the keyword options passed through
to the writer (here only `sheet_name`). -/
structure DownloadPayload where
  data : DataFrame
  writerName : String
  filename : String
  sheet_name : String
deriving DecidableEq

/-- Embedding of `dcc.send_data_frame`: packages the bound DataFrame writer,
the filename and the writer options into the download payload triple. -/
def send_data_frame (d : DataFrame) (writerName filename sheet : String) :
    DownloadPayload :=
  { data := d, writerName := writerName, filename := filename, sheet_name := sheet }

/-- The callback `func(n_clicks)` of download-dataframe-xlxs.py:
`return dcc.send_data_frame(df.to_excel, "mydf.xlxs", sheet_name="Sheet_name_1")`.
The argument `n_clicks` is ignored by the body. -/
def func (_n_clicks : Nat) : DownloadPayload :=
  send_data_frame df "to_excel" "mydf.xlxs" "Sheet_name_1"

/-- `app = dash.Dash(prevent_initial_callbacks=True)`. -/
def app_prevent_initial_callbacks : Bool := true

/-- The `prevent_initial_call=True` argument of the `@app.callback` decorator. -/
def func_prevent_initial_call : Bool := true

/-- An event that can reach the callback: the initial page load, or the
button having been clicked `n_clicks` times. -/
inductive TriggerEvent where
  | initialLoad
  | buttonClick (n_clicks : Nat)
deriving DecidableEq, Repr

/-- Modelled from the spec: the host framework's dispatch of the download
callback. A button-click event invokes `func`; the initial page load invokes
it only when `prevent_initial_call` is not set, and produces no payload when
it is set. -/
def callbackOutput (preventInitial : Bool) (ev : TriggerEvent) :
    Option DownloadPayload :=
  match ev with
  | .initialLoad => if preventInitial then none else some (func 0)
  | .buttonClick n => some (func n)

/-- A UI component of the example layout. -/
inductive Component where
  | Button (text id : String)
  | Download (id : String)
deriving DecidableEq, Repr

/-- The outer `html.Div` of the layout, embedded as its ordered children. -/
structure Layout where
  children : List Component
deriving DecidableEq

/-- `app.layout`: a Div holding the download button and the Download target. -/
def app_layout : Layout :=
  ⟨[.Button "Download Excel" "btn_xlxs", .Download "download-dataframe-xlxs"]⟩

/-- The module-level state of the example: the DataFrame `df` and the layout. -/
structure ProgramState where
  df : DataFrame
  layout : Layout
deriving DecidableEq

/-- The state at the end of module initialisation. -/
def initialState : ProgramState := { df := df, layout := app_layout }

/-- The callback as a state transformer over the module state: its body only
reads `s.df` and returns the payload; it writes nothing. -/
def funcStep (_n_clicks : Nat) (s : ProgramState) : DownloadPayload × ProgramState :=
  (send_data_frame s.df "to_excel" "mydf.xlxs" "Sheet_name_1", s)

/-- Running `k` successive click invocations of the callback from state `s`. -/
def runClicks : Nat → ProgramState → ProgramState
  | 0, s => s
  | k + 1, s => runClicks k (funcStep (k + 1) s).2

end DashDocs

namespace Vtk

/-- The error kinds of the documented construction-time validation. -/
inductive VtkError where
  | invalidProperty (typeTag prop : String)
  | invalidParentChild (parent child : String)
  | duplicateScalarRegistration
  | lengthMismatch (len nc : Nat)
  | unresolvedReference (name : String)
  | mutuallyExclusiveViolation
  | cellArrayTruncated
deriving DecidableEq, Repr

/-- A DataArray: a flat numeric sequence plus metadata (name, number of
components, registration role). -/
structure DataArray where
  name : String := ""
  values : List Int := []
  numberOfComponents : Nat := 1
  registration : Option String := none
deriving DecidableEq, Repr

/-- The registration value marking an array as the active scalar field. -/
def scalarRole : String := "setScalars"

/-- How many arrays of the container carry the scalar-registration role. -/
def countScalarRegistrations (arrays : List DataArray) : Nat :=
  (arrays.filter (fun a => a.registration == some scalarRole)).length

/-- Modelled from the spec: the per-array length invariant of Field
Attachment — each DataArray's values length must be an integer multiple of
its numberOfComponents, otherwise the construction is rejected with a
length-mismatch error. -/
def checkMultiples : List DataArray → Except VtkError Unit
  | [] => .ok ()
  | a :: rest =>
      if a.values.length % a.numberOfComponents == 0 then checkMultiples rest
      else .error (.lengthMismatch a.values.length a.numberOfComponents)

/-- Modelled from the spec: validation of a PointData/CellData container —
at most one child array may carry the scalar-registration role (a second one
is a duplicate-scalar-registration error), and every child array must satisfy
the length-vs-component-count invariant. -/
def validateFieldContainer (arrays : List DataArray) : Except VtkError Unit :=
  if 1 < countScalarRegistrations arrays then .error .duplicateScalarRegistration
  else checkMultiples arrays

/-- Modelled from the spec: each point-attached array of an ImageData must
provide exactly `numberOfComponents * numPoints` values (the 125-vs-124
example of the testable properties). -/
def checkTupleCount (n : Nat) : List DataArray → Except VtkError Unit
  | [] => .ok ()
  | a :: rest =>
      if a.values.length == a.numberOfComponents * n then checkTupleCount n rest
      else .error (.lengthMismatch a.values.length a.numberOfComponents)

/-- An ImageData node: an implicit axis-aligned grid plus its attached
PointData/CellData arrays. -/
structure ImageData where
  dimensions : List Nat := [1, 1, 1]
  origin : List Int := [0, 0, 0]
  spacing : List Int := [1, 1, 1]
  pointData : List DataArray := []
  cellData : List DataArray := []
deriving DecidableEq, Repr

/-- The number of grid points of an ImageData: the product of its dimensions. -/
def ImageData.numPoints (img : ImageData) : Nat :=
  img.dimensions.foldl (fun a b => a * b) 1

/-- Modelled from the spec: construction-time validation of an ImageData —
validate both field containers and require each point-attached array to cover
every grid point. -/
def ImageData.validate (img : ImageData) : Except VtkError Unit :=
  match validateFieldContainer img.pointData with
  | .error e => .error e
  | .ok _ =>
    match checkTupleCount img.numPoints img.pointData with
    | .error e => .error e
    | .ok _ => validateFieldContainer img.cellData

/-- A DataArray holding `k` scalar values registered as the active scalars,
as in `DataArray(registration="setScalars", values=range(5*5*5))`. -/
def scalarArray (k : Nat) : DataArray :=
  { name := "", values := (List.range k).map Int.ofNat,
    numberOfComponents := 1, registration := some scalarRole }

/-- `ImageData(dimensions=[5,5,5], origin=[-2,-2,-2], spacing=[1,1,1])` with a
single scalar point array of `k` values. -/
def imageData555 (k : Nat) : ImageData :=
  { dimensions := [5, 5, 5], origin := [-2, -2, -2], spacing := [1, 1, 1],
    pointData := [scalarArray k], cellData := [] }

/-- Modelled from the spec: parsing of a vtk cell array. Each cell is encoded
as a leading point count `n` followed by exactly `n` point indices; an array
declaring more indices than it provides is rejected. -/
def parseCells : List Nat → Except VtkError (List (List Nat))
  | [] => .ok []
  | n :: rest =>
      if n ≤ rest.length then
        match parseCells (rest.drop n) with
        | .ok cells => .ok (rest.take n :: cells)
        | .error e => .error e
      else .error .cellArrayTruncated
termination_by l => l.length
decreasing_by simp [List.length_drop]; omega

/-- A PolyData node: a surface mesh with explicit points, the four kinds of
cell arrays, the connectivity mode (defaulting to manual) and its attached
field containers. -/
structure PolyData where
  points : List Int := []
  verts : List Nat := []
  lines : List Nat := []
  polys : List Nat := []
  strips : List Nat := []
  connectivity : String := "manual"
  pointData : List DataArray := []
  cellData : List DataArray := []
deriving DecidableEq, Repr

/-- Modelled from the spec: construction-time validation of a PolyData —
every cell array (verts, lines, polys, strips) must parse as a well-formed
cell encoding, and both field containers must validate. -/
def PolyData.validate (p : PolyData) : Except VtkError (List (List Nat)) :=
  match parseCells p.verts with
  | .error e => .error e
  | .ok _ =>
    match parseCells p.lines with
    | .error e => .error e
    | .ok _ =>
      match parseCells p.strips with
      | .error e => .error e
      | .ok _ =>
        match parseCells p.polys with
        | .error e => .error e
        | .ok polyCells =>
          match validateFieldContainer p.pointData with
          | .error e => .error e
          | .ok _ =>
            match validateFieldContainer p.cellData with
            | .error e => .error e
            | .ok _ => .ok polyCells

/-- A SliceRepresentation: each of the six slicing properties is either unset
or set to a slice position (index-based for i,j,k; world-coordinate for
x,y,z). -/
structure SliceRepresentation where
  iSlice : Option Int := none
  jSlice : Option Int := none
  kSlice : Option Int := none
  xSlice : Option Int := none
  ySlice : Option Int := none
  zSlice : Option Int := none
deriving DecidableEq, Repr

/-- How many of the six slicing properties are set. -/
def SliceRepresentation.sliceCount (r : SliceRepresentation) : Nat :=
  (if r.iSlice.isSome then 1 else 0) + (if r.jSlice.isSome then 1 else 0) +
  (if r.kSlice.isSome then 1 else 0) + (if r.xSlice.isSome then 1 else 0) +
  (if r.ySlice.isSome then 1 else 0) + (if r.zSlice.isSome then 1 else 0)

/-- Whether an index-based slicing property (iSlice, jSlice, kSlice) is set. -/
def SliceRepresentation.indexSliceSet (r : SliceRepresentation) : Bool :=
  r.iSlice.isSome || r.jSlice.isSome || r.kSlice.isSome

/-- Whether a world-coordinate slicing property (xSlice, ySlice, zSlice) is set. -/
def SliceRepresentation.worldSliceSet (r : SliceRepresentation) : Bool :=
  r.xSlice.isSome || r.ySlice.isSome || r.zSlice.isSome

/-- Modelled from the spec: only one of the slicing properties may be used at
a time; setting more than one is a mutually-exclusive-property violation. -/
def SliceRepresentation.validate (r : SliceRepresentation) : Except VtkError Unit :=
  if r.sliceCount ≤ 1 then .ok () else .error .mutuallyExclusiveViolation

/-- A scene tree for shared-reference resolution: data sources (abstracted to
a payload id), ShareDataSet declarations wrapping a subtree under a name,
ShareDataSet consumers referring to a name, and grouping nodes (views,
representations, filters) with ordered children. -/
inductive VtkTree where
  | source (id : Nat)
  | shareDecl (name : String) (child : VtkTree)
  | shareRef (name : String)
  | group (tag : String) (children : List VtkTree)
deriving Repr

mutual

/-- All ShareDataSet declarations of a tree, as (name, declared subtree) pairs
in document order. -/
def declared : VtkTree → List (String × VtkTree)
  | .source _ => []
  | .shareDecl n c => (n, c) :: declared c
  | .shareRef _ => []
  | .group _ cs => declaredList cs

/-- All ShareDataSet declarations of a list of sibling subtrees. -/
def declaredList : List VtkTree → List (String × VtkTree)
  | [] => []
  | t :: ts => declared t ++ declaredList ts

end

/-- Modelled from the spec: resolution of a ShareDataSet reference name at
serialization time — the name must match exactly one declared ShareDataSet in
the tree, whose declared subtree is returned; otherwise resolution fails with
an unresolved-reference error. -/
def resolve (t : VtkTree) (name : String) : Except VtkError VtkTree :=
  match (declared t).filter (fun p => p.1 == name) with
  | [d] => .ok d.2
  | _ => .error (.unresolvedReference name)

/-- The serialized form sent to the rendering client: data payloads, named
captures, lookup keys for shared references, and grouped children. -/
inductive Serialized where
  | data (id : Nat)
  | capture (name : String) (s : Serialized)
  | key (name : String)
  | group (tag : String) (children : List Serialized)
deriving Repr

mutual

/-- Modelled from the spec: serialization of the tree — a ShareDataSet
consumer serializes to a lookup key carrying only the reference name, never a
copy of the referenced data. -/
def serialize : VtkTree → Serialized
  | .source i => .data i
  | .shareDecl n c => .capture n (serialize c)
  | .shareRef n => .key n
  | .group tag cs => .group tag (serializeList cs)

/-- Serialization of sibling subtrees. -/
def serializeList : List VtkTree → List Serialized
  | [] => []
  | t :: ts => serialize t :: serializeList ts

end

/-- A property value of a scene node: boolean, integer, string, numeric
tuple/list, or null. -/
inductive PropValue where
  | b (v : Bool)
  | i (v : Int)
  | s (v : String)
  | tuple (v : List Int)
  | null
deriving DecidableEq, Repr

/-- A property mapping: ordered association of property name to value. -/
abbrev PropMap := List (String × PropValue)

/-- First value bound to `name` in the mapping, if any. -/
def lookupProp (props : PropMap) (name : String) : Option PropValue :=
  (props.find? (fun p => p.1 == name)).map Prod.snd

/-- Modelled from the spec: default-filling — every schema property is
present in the constructed node, bound to the caller's override when supplied
and to the schema default otherwise. -/
def applyDefaults : PropMap → PropMap → PropMap
  | [], _ => []
  | q :: rest, overrides =>
      (q.1, (lookupProp overrides q.1).getD q.2) :: applyDefaults rest overrides

/-- The supplied properties whose names do not belong to the schema. -/
def unknownProps (schema overrides : PropMap) : PropMap :=
  overrides.filter (fun p => (schema.find? (fun q => q.1 == p.1)).isNone)

/-- The View property list (background, interactorSettings, camera settings,
trigger timestamps). -/
def viewSchema : PropMap :=
  [("background", .tuple [0, 0, 0]), ("interactorSettings", .null),
   ("cameraPosition", .null), ("cameraViewUp", .null),
   ("cameraParallelProjection", .b false),
   ("triggerRender", .i 0), ("triggerResetCamera", .i 0)]

/-- The PolyData property list; connectivity defaults to manual. -/
def polyDataSchema : PropMap :=
  [("points", .tuple []), ("verts", .tuple []), ("lines", .tuple []),
   ("polys", .tuple []), ("strips", .tuple []),
   ("connectivity", .s "manual")]

/-- The ImageData property list. -/
def imageDataSchema : PropMap :=
  [("dimensions", .tuple [1, 1, 1]), ("origin", .tuple [0, 0, 0]),
   ("spacing", .tuple [1, 1, 1])]

/-- The DataArray property list. -/
def dataArraySchema : PropMap :=
  [("name", .s ""), ("values", .tuple []), ("numberOfComponents", .i 1),
   ("registration", .null), ("type", .null)]

/-- The Algorithm property list (vtkClass and state). -/
def algorithmSchema : PropMap :=
  [("vtkClass", .s ""), ("state", .null), ("port", .i 0)]

/-- The Reader property list; renderOnUpdate and resetCameraOnUpdate default
to True. -/
def readerSchema : PropMap :=
  [("vtkClass", .s ""), ("url", .null), ("parseAsText", .null),
   ("parseAsArrayBuffer", .null),
   ("renderOnUpdate", .b true), ("resetCameraOnUpdate", .b true)]

/-- The ShareDataSet property list: only a reference name, with a default
name provided. -/
def shareDataSetSchema : PropMap :=
  [("name", .s "shared-dataset")]

/-- Default actor sub-properties of a GeometryRepresentation. -/
def actorSchema : PropMap :=
  [("origin", .tuple [0, 0, 0]), ("position", .tuple [0, 0, 0]),
   ("scale", .tuple [1, 1, 1]), ("visibility", .i 1), ("pickable", .i 1),
   ("dragable", .i 1), ("orientation", .tuple [0, 0, 0])]

/-- Default property sub-properties of a GeometryRepresentation. -/
def geometryPropertySchema : PropMap :=
  [("lighting", .b true), ("interpolation", .s "Gouraud"), ("ambient", .i 0),
   ("diffuse", .i 1), ("specular", .i 0), ("specularPower", .i 1),
   ("opacity", .i 1), ("edgeVisibility", .b false), ("lineWidth", .i 1),
   ("pointSize", .i 1), ("backfaceCulling", .b false),
   ("frontfaceCulling", .b false), ("representation", .s "Surface"),
   ("color", .tuple [1, 1, 1]), ("ambientColor", .tuple [1, 1, 1]),
   ("specularColor", .tuple [1, 1, 1]), ("diffuseColor", .tuple [1, 1, 1]),
   ("edgeColor", .tuple [0, 0, 0])]

/-- Default mapper sub-properties of a GeometryRepresentation. -/
def geometryMapperSchema : PropMap :=
  [("static", .b false), ("scalarVisibility", .b true),
   ("scalarRange", .tuple [0, 1]), ("useLookupTableScalarRange", .b false),
   ("colorMode", .i 0), ("scalarMode", .i 0), ("arrayAccessMode", .i 1),
   ("colorByArrayName", .s ""), ("interpolateScalarsBeforeMapping", .b false),
   ("useInvertibleColors", .b false), ("fieldDataTupleId", .i (-1)),
   ("viewSpecificProperties", .null), ("customShaderAttributes", .tuple [])]

/-- The GeometryRepresentation property list: the actor/property/mapper
sub-property bags plus the color-map conveniences and cube-axes options. -/
def geometryRepresentationSchema : PropMap :=
  [("actor", .null), ("property", .null), ("mapper", .null),
   ("colorMapPreset", .null), ("colorDataRange", .null),
   ("showCubeAxes", .b false), ("cubeAxesStyle", .null)]

/-- Modelled from the spec: the property schema of each node type — the fixed
mapping from property name to default value used by the scene-tree builder. -/
def schemaFor (typeTag : String) : Option PropMap :=
  if typeTag == "View" then some viewSchema
  else if typeTag == "PolyData" then some polyDataSchema
  else if typeTag == "ImageData" then some imageDataSchema
  else if typeTag == "DataArray" then some dataArraySchema
  else if typeTag == "Algorithm" then some algorithmSchema
  else if typeTag == "Reader" then some readerSchema
  else if typeTag == "ShareDataSet" then some shareDataSetSchema
  else if typeTag == "GeometryRepresentation" then some geometryRepresentationSchema
  else none

/-- Modelled from the spec: the scene-tree builder's node construction for a
type tag and a mapping of property overrides — every supplied property name
must belong to that type's schema (an unknown name is an invalid-property
error), and the result carries every schema property, defaulted or
overridden. -/
def mkNode (typeTag : String) (overrides : PropMap) : Except VtkError PropMap :=
  match schemaFor typeTag with
  | none => .error (.invalidProperty typeTag typeTag)
  | some schema =>
    match unknownProps schema overrides with
    | [] => .ok (applyDefaults schema overrides)
    | bad :: _ => .error (.invalidProperty typeTag bad.1)

/-- A constructed GeometryRepresentation: the three sub-property bags, each
filled from its documented defaults. -/
structure GeometryRepresentation where
  actor : PropMap
  property : PropMap
  mapper : PropMap

/-- Modelled from the spec: constructing a GeometryRepresentation from actor,
property and mapper overrides, defaulting every omitted sub-property. -/
def mkGeometryRepresentation (actorOv propOv mapperOv : PropMap) :
    GeometryRepresentation :=
  { actor := applyDefaults actorSchema actorOv,
    property := applyDefaults geometryPropertySchema propOv,
    mapper := applyDefaults geometryMapperSchema mapperOv }

/-- A scene tree sharing one volume between two representations. -/
def sharedScene : VtkTree :=
  .group "View"
    [.group "VolumeRepresentation" [.shareDecl "shared" (.source 7)],
     .group "SliceRepresentation" [.shareRef "shared"]]

end Vtk

instance {ε α : Type} [DecidableEq ε] [DecidableEq α] : DecidableEq (Except ε α) :=
  fun a b =>
    match a, b with
    | .ok x, .ok y =>
        if h : x = y then isTrue (by rw [h])
        else isFalse (fun hc => h (Except.ok.inj hc))
    | .ok _, .error _ => isFalse (fun hc => Except.noConfusion hc)
    | .error _, .ok _ => isFalse (fun hc => Except.noConfusion hc)
    | .error e, .error f =>
        if h : e = f then isTrue (by rw [h])
        else isFalse (fun hc => h (Except.error.inj hc))

namespace Vtk

/-- Every array of a container accepted by `checkMultiples` satisfies the
length-vs-component-count invariant. -/
theorem checkMultiples_ok {arrays : List DataArray}
    (h : checkMultiples arrays = .ok ()) :
    ∀ a ∈ arrays, a.values.length % a.numberOfComponents = 0 := by
  induction arrays with
  | nil => intro a ha; cases ha
  | cons b rest ih =>
    intro a ha
    unfold checkMultiples at h
    by_cases hb : b.values.length % b.numberOfComponents == 0
    · rw [if_pos hb] at h
      rcases List.mem_cons.mp ha with rfl | hmem
      · exact eq_of_beq hb
      · exact ih h a hmem
    · rw [if_neg hb] at h
      cases h

/-- Unfolding lookup over a cons cell of a property mapping. -/
theorem lookupProp_cons (k : String) (v : PropValue) (t : PropMap) (name : String) :
    lookupProp ((k, v) :: t) name = if k == name then some v else lookupProp t name := by
  unfold lookupProp
  by_cases hb : (k == name) = true
  · rw [List.find?_cons_of_pos (p := fun r : String × PropValue => r.1 == name) t hb,
      if_pos hb]
    rfl
  · rw [List.find?_cons_of_neg (p := fun r : String × PropValue => r.1 == name) t hb,
      if_neg hb]

/-- Default lookup: a schema property left unset by the caller is bound to
its schema default in the constructed node. -/
theorem lookup_applyDefaults (schema overrides : PropMap) (name : String)
    (dflt : PropValue) (h1 : lookupProp schema name = some dflt)
    (h2 : lookupProp overrides name = none) :
    lookupProp (applyDefaults schema overrides) name = some dflt := by
  induction schema with
  | nil => simp [lookupProp] at h1
  | cons q rest ih =>
    obtain ⟨k, v⟩ := q
    rw [lookupProp_cons] at h1
    rw [show applyDefaults ((k, v) :: rest) overrides =
        (k, (lookupProp overrides k).getD v) :: applyDefaults rest overrides from rfl]
    rw [lookupProp_cons]
    by_cases hb : (k == name) = true
    · rw [if_pos hb] at h1
      rw [if_pos hb]
      have hk : k = name := eq_of_beq hb
      subst hk
      rw [h2]
      simpa using h1
    · rw [if_neg hb] at h1
      rw [if_neg hb]
      exact ih h1

end Vtk

namespace DashDocs

/-- C1: for every positive click count, `func` returns the value of
`dcc.send_data_frame(df.to_excel, "mydf.xlxs", sheet_name="Sheet_name_1")`,
a (data, filename, options) triple for the framework's download mechanism,
and the payload is produced only for button-click events, never on initial
page load, since both `prevent_initial_callbacks` and `prevent_initial_call`
are set. -/
theorem C1_download_callback (n : Nat) (h : 0 < n) :
    func n = send_data_frame df "to_excel" "mydf.xlxs" "Sheet_name_1" ∧
    callbackOutput func_prevent_initial_call (.buttonClick n) = some (func n) ∧
    callbackOutput func_prevent_initial_call .initialLoad = none ∧
    app_prevent_initial_callbacks = true ∧
    func_prevent_initial_call = true :=
  ⟨rfl, rfl, rfl, rfl, rfl⟩

/-- Witness for C1 at one click. -/
theorem C1_download_callback_witness :
    func 1 = send_data_frame df "to_excel" "mydf.xlxs" "Sheet_name_1" ∧
    callbackOutput func_prevent_initial_call (.buttonClick 1) = some (func 1) ∧
    callbackOutput func_prevent_initial_call .initialLoad = none ∧
    app_prevent_initial_callbacks = true ∧
    func_prevent_initial_call = true :=
  C1_download_callback 1 (by decide)

/-- C9: the callback is deterministic and independent of its input — any two
invocations return equal triples, the filename is always the constant
"mydf.xlxs" (misspelled extension), the sheet name is always "Sheet_name_1",
and the payload is always derived from the module-level DataFrame `df`. -/
theorem C9_callback_constant (n1 n2 : Nat) :
    func n1 = func n2 ∧
    (func n1).filename = "mydf.xlxs" ∧
    (func n1).sheet_name = "Sheet_name_1" ∧
    (func n1).data = df ∧
    (func n1).writerName = "to_excel" :=
  ⟨rfl, rfl, rfl, rfl, rfl⟩

/-- C10: invoking the callback any number of times leaves the module state —
the DataFrame `df` with its documented columns and the app layout —
unchanged. -/
theorem C10_callback_frame (k : Nat) (s : ProgramState) :
    (funcStep k s).2 = s ∧
    runClicks k s = s ∧
    initialState.df = df ∧
    initialState.layout = app_layout ∧
    df = [("a", [.int 1, .int 2, .int 3, .int 4]),
          ("b", [.int 2, .int 1, .int 5, .int 6]),
          ("c", [.str "x", .str "x", .str "y", .str "y"])] := by
  refine ⟨rfl, ?_, rfl, rfl, rfl⟩
  induction k with
  | zero => rfl
  | succ k ih => exact ih

end DashDocs

namespace Vtk

set_option maxRecDepth 8192 in
/-- C2: every DataArray accepted under a PointData/CellData container has a
values length that is an integer multiple of its numberOfComponents; the
ImageData [5,5,5] construction with a 125-value scalar array succeeds, while
the same construction with 124 values is rejected. -/
theorem C2_dataarray_length (arrays : List DataArray)
    (h : validateFieldContainer arrays = .ok ()) :
    (∀ a ∈ arrays, a.values.length % a.numberOfComponents = 0) ∧
    (imageData555 125).validate = .ok () ∧
    (imageData555 124).validate = .error (.lengthMismatch 124 1) := by
  refine ⟨?_, by decide, by decide⟩
  unfold validateFieldContainer at h
  by_cases hd : 1 < countScalarRegistrations arrays
  · rw [if_pos hd] at h
    cases h
  · rw [if_neg hd] at h
    exact checkMultiples_ok h

/-- Witness for C2 on a container holding one well-formed scalar array. -/
theorem C2_dataarray_length_witness :
    (∀ a ∈ [scalarArray 4], a.values.length % a.numberOfComponents = 0) ∧
    (imageData555 125).validate = .ok () ∧
    (imageData555 124).validate = .error (.lengthMismatch 124 1) :=
  C2_dataarray_length [scalarArray 4] (by rfl)

/-- C3: at most one DataArray per container may carry the scalar-registration
role; a container declaring it twice is rejected with the
duplicate-scalar-registration error. -/
theorem C3_scalar_registration (arrays : List DataArray) :
    (validateFieldContainer arrays = .ok () → countScalarRegistrations arrays ≤ 1) ∧
    (2 ≤ countScalarRegistrations arrays →
      validateFieldContainer arrays = .error .duplicateScalarRegistration) := by
  constructor
  · intro h
    by_contra hc
    unfold validateFieldContainer at h
    rw [if_pos (by omega)] at h
    cases h
  · intro h
    unfold validateFieldContainer
    rw [if_pos (by omega)]

/-- Witness for C3: two arrays both registered as scalars are rejected. -/
theorem C3_scalar_registration_witness :
    validateFieldContainer [scalarArray 2, scalarArray 3] =
      .error .duplicateScalarRegistration :=
  (C3_scalar_registration [scalarArray 2, scalarArray 3]).2 (by decide)

/-- C5: at most one of the six slicing properties of a SliceRepresentation
may be set; setting both an index-based and a world-coordinate slicing
property is rejected as a mutually-exclusive-property violation. -/
theorem C5_slice_exclusive (r : SliceRepresentation) :
    (r.validate = .ok () → r.sliceCount ≤ 1) ∧
    (r.indexSliceSet = true → r.worldSliceSet = true →
      r.validate = .error .mutuallyExclusiveViolation) := by
  constructor
  · intro h
    by_contra hc
    unfold SliceRepresentation.validate at h
    rw [if_neg hc] at h
    cases h
  · intro hi hw
    have hcount : ¬ r.sliceCount ≤ 1 := by
      have hi2 : (r.iSlice.isSome = true ∨ r.jSlice.isSome = true) ∨
          r.kSlice.isSome = true := by
        simpa [SliceRepresentation.indexSliceSet] using hi
      have hw2 : (r.xSlice.isSome = true ∨ r.ySlice.isSome = true) ∨
          r.zSlice.isSome = true := by
        simpa [SliceRepresentation.worldSliceSet] using hw
      unfold SliceRepresentation.sliceCount
      rcases hi2 with (h1 | h1) | h1 <;> rcases hw2 with (h2 | h2) | h2 <;>
        simp [h1, h2] <;> omega
    unfold SliceRepresentation.validate
    rw [if_neg hcount]

/-- Witness for C5: iSlice together with xSlice is rejected. -/
theorem C5_slice_exclusive_witness :
    SliceRepresentation.validate { iSlice := some 0, xSlice := some 0 } =
      .error .mutuallyExclusiveViolation :=
  (C5_slice_exclusive { iSlice := some 0, xSlice := some 0 }).2 (by rfl) (by rfl)

end Vtk

namespace Vtk

/-- C4: a ShareDataSet reference name used in a scene tree resolves at
serialization time to exactly the single node declared under that name (the
consumer's serialized form is a lookup key, not a copy of the data); a name
matching no declaration is rejected with an unresolved-reference error. -/
theorem C4_share_resolution (t : VtkTree) (name : String) (d : VtkTree)
    (h : (declared t).filter (fun p => p.1 == name) = [(name, d)]) :
    resolve t name = .ok d ∧
    (∀ t2 : VtkTree, ∀ nm : String,
      (declared t2).filter (fun p => p.1 == nm) = [] →
      resolve t2 nm = .error (.unresolvedReference nm)) ∧
    (∀ nm : String, serialize (.shareRef nm) = .key nm) := by
  refine ⟨?_, ?_, fun nm => rfl⟩
  · unfold resolve
    rw [h]
  · intro t2 nm h2
    unfold resolve
    rw [h2]

/-- Witness for C4 on the shared-volume scene. -/
theorem C4_share_resolution_witness :
    resolve sharedScene "shared" = .ok (.source 7) :=
  (C4_share_resolution sharedScene "shared" (.source 7) (by rfl)).1

/-- C6: node construction succeeds exactly when every supplied property name
belongs to the node type's schema, and any unknown supplied name yields an
invalid-property error. -/
theorem C6_invalid_property (tag : String) (schema overrides : PropMap)
    (h : schemaFor tag = some schema) :
    ((∃ node, mkNode tag overrides = .ok node) ↔
      ∀ p ∈ overrides, (schema.find? (fun q => q.1 == p.1)).isSome = true) ∧
    (∀ p ∈ overrides, (schema.find? (fun q => q.1 == p.1)).isSome = false →
      ∃ bad, mkNode tag overrides = .error (.invalidProperty tag bad)) := by
  have hnone : ∀ o : Option (String × PropValue),
      o.isNone = true ↔ o.isSome = false := by
    intro o
    cases o <;> simp
  have hmk : mkNode tag overrides =
      (match unknownProps schema overrides with
        | [] => .ok (applyDefaults schema overrides)
        | bad :: _ => .error (.invalidProperty tag bad.1)) := by
    unfold mkNode
    rw [h]
  constructor
  · constructor
    · rintro ⟨node, hnode⟩ p hp
      cases hu : unknownProps schema overrides with
      | nil =>
        have hnm : p ∉ unknownProps schema overrides := by
          rw [hu]
          exact List.not_mem_nil p
        unfold unknownProps at hnm
        rw [List.mem_filter] at hnm
        push_neg at hnm
        have h2 := hnm hp
        cases hs : (schema.find? (fun q => q.1 == p.1)).isSome with
        | true => rfl
        | false => exact absurd ((hnone _).mpr hs) h2
      | cons b bs =>
        rw [hu] at hmk
        rw [hmk] at hnode
        cases hnode
    · intro hall
      have hu : unknownProps schema overrides = [] := by
        unfold unknownProps
        rw [List.filter_eq_nil_iff]
        intro p hp
        rw [hnone]
        simp [hall p hp]
      rw [hu] at hmk
      exact ⟨applyDefaults schema overrides, hmk⟩
  · intro p hp hs
    have hmem : p ∈ unknownProps schema overrides := by
      unfold unknownProps
      rw [List.mem_filter]
      exact ⟨hp, (hnone _).mpr hs⟩
    cases hu : unknownProps schema overrides with
    | nil =>
      rw [hu] at hmem
      cases hmem
    | cons b bs =>
      rw [hu] at hmk
      exact ⟨b.1, hmk⟩

/-- Witness for C6: an unknown property on PolyData is rejected. -/
theorem C6_invalid_property_witness :
    ∃ bad, mkNode "PolyData" [("bogus", PropValue.i 3)] =
      .error (.invalidProperty "PolyData" bad) :=
  (C6_invalid_property "PolyData" polyDataSchema [("bogus", PropValue.i 3)]
      (by rfl)).2 ("bogus", PropValue.i 3) (by simp) (by rfl)

/-- C7: every schema property omitted by the caller is bound to its
documented default in the constructed node; in particular PolyData's
connectivity defaults to manual, Reader's renderOnUpdate and
resetCameraOnUpdate default to True, and the GeometryRepresentation
actor/property/mapper sub-properties carry their documented defaults. -/
theorem C7_defaults (schema overrides : PropMap) (name : String)
    (dflt : PropValue) (h1 : lookupProp schema name = some dflt)
    (h2 : lookupProp overrides name = none) :
    lookupProp (applyDefaults schema overrides) name = some dflt ∧
    lookupProp (applyDefaults polyDataSchema []) "connectivity" =
      some (.s "manual") ∧
    lookupProp (applyDefaults readerSchema []) "renderOnUpdate" =
      some (.b true) ∧
    lookupProp (applyDefaults readerSchema []) "resetCameraOnUpdate" =
      some (.b true) ∧
    lookupProp (mkGeometryRepresentation [] [] []).actor "origin" =
      some (.tuple [0, 0, 0]) ∧
    lookupProp (mkGeometryRepresentation [] [] []).property "opacity" =
      some (.i 1) ∧
    lookupProp (mkGeometryRepresentation [] [] []).mapper "colorByArrayName" =
      some (.s "") :=
  ⟨lookup_applyDefaults schema overrides name dflt h1 h2,
    by rfl, by rfl, by rfl, by rfl, by rfl, by rfl⟩

/-- Witness for C7 at PolyData's connectivity property. -/
theorem C7_defaults_witness :
    lookupProp (applyDefaults polyDataSchema []) "connectivity" =
      some (.s "manual") :=
  (C7_defaults polyDataSchema [] "connectivity" (.s "manual")
      (by rfl) (by rfl)).1

/-- C8: `PolyData(points=[0,0,0,1,0,0,0,1,0], polys=[3,0,1,2])` builds a
single-triangle mesh — one cell of exactly the three declared point indices —
while a cell array declaring more indices than it provides, such as
`lines=[3,0,1]`, is rejected. -/
theorem C8_polydata_cells (n : Nat) (idx : List Nat) (h : idx.length < n) :
    parseCells [3, 0, 1, 2] = .ok [[0, 1, 2]] ∧
    PolyData.validate
        { points := [0, 0, 0, 1, 0, 0, 0, 1, 0], polys := [3, 0, 1, 2] } =
      .ok [[0, 1, 2]] ∧
    parseCells (n :: idx) = .error .cellArrayTruncated ∧
    PolyData.validate
        { points := [0, 0, 0, 1, 0, 0, 0, 1, 0], lines := [3, 0, 1] } =
      .error .cellArrayTruncated := by
  have hone : parseCells [3, 0, 1, 2] = .ok [[0, 1, 2]] := by
    simp [parseCells]
  have hnil : parseCells [] = .ok [] := by
    simp [parseCells]
  have htrunc : parseCells (n :: idx) = .error .cellArrayTruncated := by
    rw [parseCells]
    rw [if_neg (by omega)]
  have hlines : parseCells [3, 0, 1] = .error .cellArrayTruncated := by
    have : ([0, 1] : List Nat).length < 3 := by simp
    rw [parseCells]
    rw [if_neg (by simp)]
  refine ⟨hone, ?_, htrunc, ?_⟩
  · unfold PolyData.validate
    simp only [hnil, hone]
    rfl
  · unfold PolyData.validate
    simp only [hnil, hlines]

/-- Witness for C8 at the truncated cell array [3, 0, 1]. -/
theorem C8_polydata_cells_witness :
    parseCells [3, 0, 1] = .error .cellArrayTruncated :=
  (C8_polydata_cells 3 [0, 1] (by decide)).2.2.1

end Vtk

namespace DashDocs

/-- Witness for C9 at click counts 1 and 2. -/
theorem C9_callback_constant_witness :
    func 1 = func 2 ∧
    (func 1).filename = "mydf.xlxs" ∧
    (func 1).sheet_name = "Sheet_name_1" ∧
    (func 1).data = df ∧
    (func 1).writerName = "to_excel" :=
  C9_callback_constant 1 2

/-- Witness for C10 after three clicks from the initial state. -/
theorem C10_callback_frame_witness :
    (funcStep 3 initialState).2 = initialState ∧
    runClicks 3 initialState = initialState ∧
    initialState.df = df ∧
    initialState.layout = app_layout ∧
    df = [("a", [.int 1, .int 2, .int 3, .int 4]),
          ("b", [.int 2, .int 1, .int 5, .int 6]),
          ("c", [.str "x", .str "x", .str "y", .str "y"])] :=
  C10_callback_frame 3 initialState

end DashDocs
